import Mathlib

/-!
Verification of the pluggable data-quality validation engine
(`monitoring/data_quality_monitor.py`).

Shallow embedding conventions:
- A pandas DataFrame becomes `Dataset`: a list of column headers and a list
  of rows, each row a list of `Cell`s.  `len(data)` is `d.rows.length`.
- A cell is `null` (NaN/None), a number, a date, or other text.  Dates are
  integers counting days since 1970-01-01; `pd.to_datetime(..., errors
  ="coerce")` is modelled by `Cell.parseDate`, which classifies `Cell.date`
  values as parseable and everything else as coerced-to-missing.
- Python floats become `Rat`.  `datetime.now()` becomes an explicit `now`
  parameter of type `Int` (days).
- A Python method that can raise becomes a function into `Except String`.
- Scores and thresholds keep the source's formulas verbatim.
-/

inductive Cell where
  | null : Cell
  | num (q : ℚ) : Cell
  | date (d : ℤ) : Cell
  | text (s : String) : Cell
deriving DecidableEq, Repr

def Cell.isNull : Cell → Bool
  | Cell.null => true
  | _ => false

def Cell.isNum : Cell → Bool
  | Cell.num _ => true
  | _ => false

def Cell.toNum : Cell → Option ℚ
  | Cell.num q => some q
  | _ => none

/-- Result of `pd.to_datetime(cell, errors="coerce")`: a `Cell.date` parses,
everything else coerces to NaT (`none`). -/
def Cell.parseDate : Cell → Option ℤ
  | Cell.date d => some d
  | _ => none

structure Dataset where
  headers : List String
  rows : List (List Cell)
deriving DecidableEq, Repr

def Dataset.hasCol (d : Dataset) (c : String) : Bool :=
  d.headers.any (fun h => h == c)

/-- Index of a header name (first occurrence; `headers.length` if absent). -/
def colIdx (c : String) : List String → ℕ
  | [] => 0
  | h :: rest => if h = c then 0 else colIdx c rest + 1

/-- The column `data[c]` as a list of cells, one per row. -/
def Dataset.getCol (d : Dataset) (c : String) : List Cell :=
  d.rows.map (fun row => row.getD (colIdx c d.headers) Cell.null)

/-- Values a Python dict entry in `ValidationResult.details` can hold. -/
inductive DVal where
  | num (q : ℚ) : DVal
  | int (n : ℤ) : DVal
  | nat (n : ℕ) : DVal
  | str (s : String) : DVal
  | strList (l : List String) : DVal
deriving DecidableEq, Repr

/-- `ValidationResult` dataclass. -/
structure ValidationResult where
  rule_name : String
  success : Bool
  score : ℚ
  details : List (String × DVal)
  recommendations : List String
deriving DecidableEq, Repr

def ValidationResult.hasErrorDetail (res : ValidationResult) : Bool :=
  res.details.any (fun kv => kv.1 == "error")

/-! ## CompletenessRule -/

structure CompletenessRule where
  threshold : ℚ := 2
deriving DecidableEq, Repr

/-- Number of null cells in column index `i`. -/
def Dataset.colNullCount (d : Dataset) (i : ℕ) : ℕ :=
  d.rows.countP (fun row => (row.getD i Cell.null).isNull)

/-- `(data.isnull().sum() / len(data) * 100).max()`.  With zero rows the
per-column ratio is 0/0 = NaN, and with zero columns `.max()` of an empty
series is NaN; both are modelled as `none`.  Otherwise every percentage is a
real number in `[0, 100]` and the fold computes their maximum. -/
def Dataset.maxMissingPct (d : Dataset) : Option ℚ :=
  if d.rows.length = 0 ∨ d.headers.length = 0 then none
  else
    some (((List.range d.headers.length).map
      (fun i => (d.colNullCount i : ℚ) / (d.rows.length : ℚ) * 100)).foldr max 0)

def CompletenessRule.get_recommendations (r : CompletenessRule) (missing_pct : ℚ) : List String :=
  if missing_pct > r.threshold then
    ["Investigate upstream data sources", "Implement data validation at ingestion"]
  else []

/-- `CompletenessRule.validate`.  In the NaN case (`none`) the Python
comparisons `NaN <= threshold` and `NaN > threshold` are both false and
`max(0, 100 - NaN)` evaluates to 0, which is written out explicitly. -/
def CompletenessRule.validate (r : CompletenessRule) (data : Dataset) : ValidationResult :=
  match data.maxMissingPct with
  | none =>
      { rule_name := "completeness"
        success := false
        score := 0
        details := [("missing_percentage", DVal.str "NaN"), ("threshold", DVal.num r.threshold)]
        recommendations := [] }
  | some missing_pct =>
      { rule_name := "completeness"
        success := decide (missing_pct ≤ r.threshold)
        score := max 0 (100 - missing_pct)
        details := [("missing_percentage", DVal.num missing_pct), ("threshold", DVal.num r.threshold)]
        recommendations := r.get_recommendations missing_pct }

/-! ## UniquenessRule -/

structure UniquenessRule where
  key_columns : List String
deriving DecidableEq, Repr

/-- Tuple of the key-column values of one row. -/
def Dataset.keyTuple (d : Dataset) (keys : List String) (row : List Cell) : List Cell :=
  keys.map (fun c => row.getD (colIdx c d.headers) Cell.null)

/-- `data.duplicated(subset=keys).sum()`: rows whose key tuple equals the key
tuple of an earlier row (every occurrence after the first counts). -/
def dupCountAux : List (List Cell) → List (List Cell) → ℕ
  | [], _ => 0
  | k :: rest, seen => (if k ∈ seen then 1 else 0) + dupCountAux rest (k :: seen)

def UniquenessRule.get_recommendations (_r : UniquenessRule) (duplicates : ℕ) : List String :=
  if 0 < duplicates then
    ["Implement deduplication logic", "Review data ingestion process"]
  else []

/-- `UniquenessRule.validate`.  `data.duplicated(subset=...)` raises
`KeyError` when a key column is missing from the DataFrame, modelled as the
exceptional (`Except.error`) branch. -/
def UniquenessRule.validate (r : UniquenessRule) (data : Dataset) :
    Except String ValidationResult :=
  if r.key_columns.all (fun c => data.hasCol c) then
    let duplicates := dupCountAux (data.rows.map (data.keyTuple r.key_columns)) []
    let success : Bool := duplicates == 0
    Except.ok
      { rule_name := "uniqueness"
        success := success
        score := if success then 100
                 else max 0 (100 - ((duplicates : ℚ) / (data.rows.length : ℚ) * 100))
        details := [("duplicate_count", DVal.nat duplicates),
                    ("key_columns", DVal.strList r.key_columns)]
        recommendations := r.get_recommendations duplicates }
  else Except.error "KeyError"

/-! ## DateValidityRule -/

structure DateValidityRule where
  date_columns : List String
  max_future_days : ℤ := 1
deriving DecidableEq, Repr

/-- `pd.Timestamp(2000-01-01)` as days since 1970-01-01. -/
def year2000 : ℤ := 10957

/-- Invalid cells of one present date column: unparsable (`NaT`) cells, cells
more than `max_future_days` after `now`, and cells before the year-2000
floor.  The three counts are summed exactly as in the source. -/
def DateValidityRule.colInvalidCount (r : DateValidityRule) (now : ℤ) (cells : List Cell) : ℕ :=
  let series := cells.map Cell.parseDate
  series.countP (fun o => o.isNone)
    + series.countP (fun o => o.elim false (fun dd => decide (now + r.max_future_days < dd)))
    + series.countP (fun o => o.elim false (fun dd => decide (dd < year2000)))

/-- One iteration of the `for col in self.date_columns` loop, accumulating
`(invalid_dates, total_date_cells)`; a column absent from the dataset is
skipped. -/
def DateValidityRule.scanStep (r : DateValidityRule) (data : Dataset) (now : ℤ)
    (acc : ℕ × ℕ) (col : String) : ℕ × ℕ :=
  if data.hasCol col then
    (acc.1 + r.colInvalidCount now (data.getCol col), acc.2 + data.rows.length)
  else acc

def DateValidityRule.scanColumns (r : DateValidityRule) (data : Dataset) (now : ℤ) : ℕ × ℕ :=
  r.date_columns.foldl (r.scanStep data now) (0, 0)

def DateValidityRule.get_recommendations (_r : DateValidityRule)
    (invalid_dates total_cells : ℕ) : List String :=
  if 0 < invalid_dates then
    let error_rate : ℚ := if 0 < total_cells then (invalid_dates : ℚ) / (total_cells : ℚ) else 1
    (if error_rate > 1/10 then
       ["Review data source date format standards",
        "Implement date validation at data ingestion"]
     else
       ["Clean up invalid date entries",
        "Add date format validation to ETL pipeline"])
      ++ ["Consider adding date range business rules"]
  else []

/-- `DateValidityRule.validate`; `now` is the value of `datetime.now()` at
the time of the call. -/
def DateValidityRule.validate (r : DateValidityRule) (data : Dataset) (now : ℤ) :
    ValidationResult :=
  let invalid_dates := (r.scanColumns data now).1
  let total_date_cells := (r.scanColumns data now).2
  let validity_rate : ℚ :=
    if 0 < total_date_cells then
      ((total_date_cells : ℚ) - (invalid_dates : ℚ)) / (total_date_cells : ℚ) * 100
    else 0
  { rule_name := "date_validity"
    success := invalid_dates == 0
    score := validity_rate
    details := [("invalid_dates", DVal.nat invalid_dates),
                ("total_date_cells", DVal.nat total_date_cells),
                ("date_columns", DVal.strList r.date_columns),
                ("max_future_days", DVal.int r.max_future_days)]
    recommendations := r.get_recommendations invalid_dates total_date_cells }

/-! ## RoiThresholdRule -/

structure RoiThresholdRule where
  roi_column : String
  min_threshold : ℚ := 0
  max_threshold : ℚ := 5
deriving DecidableEq, Repr

/-- The early-return result for a missing ROI column. -/
def RoiThresholdRule.missingColumnResult (r : RoiThresholdRule) : ValidationResult :=
  { rule_name := "roi_threshold"
    success := false
    score := 0
    details := [("error", DVal.str ("Column \x27" ++ r.roi_column ++ "\x27 not found in dataset"))]
    recommendations := ["Verify ROI column name in configuration"] }

/-- The early-return result when `dropna()` leaves no values. -/
def RoiThresholdRule.noValidValuesResult : ValidationResult :=
  { rule_name := "roi_threshold"
    success := false
    score := 0
    details := [("error", DVal.str "No valid ROI values found")]
    recommendations := ["Check ROI calculation logic", "Verify spend and sales data"] }

def RoiThresholdRule.get_recommendations (_r : RoiThresholdRule)
    (outliers_low outliers_high total_values : ℕ) : List String :=
  let highRecs : List String :=
    if 0 < outliers_high then
      if ((outliers_high : ℚ) / (total_values : ℚ)) > 1/10 then
        ["Review ROI calculation - unusually high values may indicate data errors",
         "Validate advertising spend vs sales attribution"]
      else ["Investigate campaigns with exceptional ROI performance"]
    else []
  let lowRecs : List String :=
    if 0 < outliers_low then
      if ((outliers_low : ℚ) / (total_values : ℚ)) > 1/10 then
        ["Review low ROI campaigns for optimization opportunities",
         "Check for data quality issues in spend or sales tracking"]
      else ["Monitor underperforming campaigns for budget reallocation"]
    else []
  let recs := highRecs ++ lowRecs
  if recs.isEmpty then ["ROI values within expected ranges"] else recs

/-- `RoiThresholdRule.validate`.  `dropna()` removes nulls; comparing the
remaining values against the float bounds raises `TypeError` when a value is
non-numeric (dates/strings in the column), modelled by the `Except.error`
branch. -/
def RoiThresholdRule.validate (r : RoiThresholdRule) (data : Dataset) :
    Except String ValidationResult :=
  if !data.hasCol r.roi_column then Except.ok r.missingColumnResult
  else
    let roi_cells := (data.getCol r.roi_column).filter (fun c => !c.isNull)
    if roi_cells.length = 0 then Except.ok RoiThresholdRule.noValidValuesResult
    else if roi_cells.all Cell.isNum then
      let roi_values := roi_cells.filterMap Cell.toNum
      let outliers_low := (roi_values.filter (fun v => decide (v < r.min_threshold))).length
      let outliers_high := (roi_values.filter (fun v => decide (v > r.max_threshold))).length
      let total_outliers := outliers_low + outliers_high
      let outlier_rate : ℚ := (total_outliers : ℚ) / (roi_cells.length : ℚ)
      Except.ok
        { rule_name := "roi_threshold"
          success := decide (outlier_rate ≤ 1/20)
          score := max 0 (100 - outlier_rate * 100 * 2)
          details := [("outliers_below_threshold", DVal.nat outliers_low),
                      ("outliers_above_threshold", DVal.nat outliers_high),
                      ("total_outliers", DVal.nat total_outliers),
                      ("total_valid_values", DVal.nat roi_cells.length),
                      ("min_threshold", DVal.num r.min_threshold),
                      ("max_threshold", DVal.num r.max_threshold),
                      ("roi_column", DVal.str r.roi_column)]
          recommendations := r.get_recommendations outliers_low outliers_high roi_cells.length }
    else Except.error "TypeError"

/-! ## Rule union, factory, orchestrator, aggregator, alert dispatcher -/

/-- The four concrete `ValidationRule` subclasses as a tagged union. -/
inductive Rule where
  | completeness (r : CompletenessRule) : Rule
  | uniqueness (r : UniquenessRule) : Rule
  | date_validity (r : DateValidityRule) : Rule
  | roi_threshold (r : RoiThresholdRule) : Rule
deriving DecidableEq, Repr

/-- `rule.__class__.__name__`, used in the orchestrator's failure log. -/
def Rule.name : Rule → String
  | Rule.completeness _ => "CompletenessRule"
  | Rule.uniqueness _ => "UniquenessRule"
  | Rule.date_validity _ => "DateValidityRule"
  | Rule.roi_threshold _ => "RoiThresholdRule"

/-- Dynamic dispatch of `rule.validate(data)`; `now` is the clock value at
the moment of the call (read only by the date-validity rule). -/
def Rule.validateAt : Rule → Dataset → ℤ → Except String ValidationResult
  | Rule.completeness r, data, _ => Except.ok (r.validate data)
  | Rule.uniqueness r, data, _ => r.validate data
  | Rule.date_validity r, data, now => Except.ok (r.validate data now)
  | Rule.roi_threshold r, data, _ => r.validate data

/-- Whether the rule's result can depend on `datetime.now()`. -/
def Rule.usesClock : Rule → Bool
  | Rule.date_validity _ => true
  | _ => false

/-- Side condition under which the date-validity score formula cannot count
one cell twice: the current instant plus `max_future_days` must not be
earlier than the year-2000 sanity floor.  All other rules carry no
condition. -/
def Rule.clockOK : Rule → ℤ → Prop
  | Rule.date_validity r, now => year2000 ≤ now + r.max_future_days
  | _, _ => True

/-- Keyword arguments accepted by the rule constructors, with the source's
defaults (`key_columns`, `date_columns` and `roi_column` have no Python
default and default here to the empty value). -/
structure RuleParams where
  threshold : ℚ := 2
  key_columns : List String := []
  date_columns : List String := []
  max_future_days : ℤ := 1
  roi_column : String := ""
  min_threshold : ℚ := 0
  max_threshold : ℚ := 5
deriving Repr

/-- Keys of `ValidationRuleFactory._rules`. -/
def ValidationRuleFactory.rules : List String :=
  ["completeness", "uniqueness", "date_validity", "roi_threshold"]

/-- `ValidationRuleFactory.create_rule`: unknown kinds raise
`ValueError(f"Unknown rule type: ...")`, registered kinds construct the rule
with the supplied parameters. -/
def ValidationRuleFactory.create_rule (rule_type : String) (p : RuleParams) :
    Except String Rule :=
  if ValidationRuleFactory.rules.contains rule_type then
    if rule_type = "completeness" then
      Except.ok (Rule.completeness { threshold := p.threshold })
    else if rule_type = "uniqueness" then
      Except.ok (Rule.uniqueness { key_columns := p.key_columns })
    else if rule_type = "date_validity" then
      Except.ok (Rule.date_validity
        { date_columns := p.date_columns, max_future_days := p.max_future_days })
    else
      Except.ok (Rule.roi_threshold
        { roi_column := p.roi_column, min_threshold := p.min_threshold,
          max_threshold := p.max_threshold })
  else Except.error ("Unknown rule type: " ++ rule_type)

/-- Failure to read the CSV, caught in `validate_data`. -/
def DataLoadError := String

/-- The `for rule in self.validation_rules` loop of
`DataQualityMonitor.validate_data`: first component collects the results of
the rules whose `validate` returned normally, in configuration order; second
component collects the `logger.error` messages of the rules that raised. -/
def runRules (data : Dataset) (now : ℤ) : List Rule → List ValidationResult × List String
  | [] => ([], [])
  | r :: rest =>
    match r.validateAt data now with
    | Except.ok v =>
        (v :: (runRules data now rest).1, (runRules data now rest).2)
    | Except.error e =>
        ((runRules data now rest).1,
         ("Error running rule " ++ r.name ++ ": " ++ e) :: (runRules data now rest).2)

/-- `DataQualityMonitor.validate_data`: when loading raises, the outer
handler logs and returns `[]` before any rule runs. -/
def validate_data (load : Except DataLoadError Dataset) (rules : List Rule) (now : ℤ) :
    List ValidationResult :=
  match load with
  | Except.error _ => []
  | Except.ok data => (runRules data now rules).1

/-- Which rules had their `validate` invoked during `validate_data` (class
names, in loop order): all of them when the dataset loads, none when loading
fails. -/
def invokedRules (load : Except DataLoadError Dataset) (rules : List Rule) : List String :=
  match load with
  | Except.error _ => []
  | Except.ok _ => rules.map Rule.name

/-- The three `overall_status` tiers (the source decorates the strings with
emoji markers; only the tier is modelled). -/
inductive Status where
  | PASSING : Status
  | WARNING : Status
  | CRITICAL : Status
deriving DecidableEq, Repr

/-- Numeric badness of a status tier, for stating monotonicity. -/
def statusSeverity : Status → ℕ
  | Status.PASSING => 0
  | Status.WARNING => 1
  | Status.CRITICAL => 2

/-- The threshold cascade of `calculate_metrics`: warning tier tested
first, then critical, else CRITICAL. -/
def classifyStatus (warning critical success_rate : ℚ) : Status :=
  if success_rate ≥ warning then Status.PASSING
  else if success_rate ≥ critical then Status.WARNING
  else Status.CRITICAL

/-- `QualityMetrics` dataclass (`run_id` and `timestamp` are excluded by
every claim and omitted). -/
structure QualityMetrics where
  success_rate : ℚ
  total_checks : ℕ
  passed_checks : ℕ
  failed_checks : ℕ
  critical_failures : List String
  overall_status : Status
deriving DecidableEq, Repr

/-- `DataQualityMonitor.calculate_metrics`. -/
def calculate_metrics (warning critical : ℚ) (results : List ValidationResult) :
    Option QualityMetrics :=
  if results.isEmpty then none
  else
    let total_checks := results.length
    let passed_checks := (results.filter (fun r => r.success)).length
    let failed_checks := total_checks - passed_checks
    let success_rate : ℚ :=
      if 0 < total_checks then (passed_checks : ℚ) / (total_checks : ℚ) * 100 else 0
    some
      { success_rate := success_rate
        total_checks := total_checks
        passed_checks := passed_checks
        failed_checks := failed_checks
        critical_failures := (results.filter (fun r => !r.success)).map (fun r => r.rule_name)
        overall_status := classifyStatus warning critical success_rate }

/-- `DataQualityMonitor.monitor`: empty result list (in particular a load
failure) yields `None`; otherwise the aggregated metrics are returned. -/
def monitor (warning critical : ℚ) (rules : List Rule)
    (load : Except DataLoadError Dataset) (now : ℤ) : Option QualityMetrics :=
  let results := validate_data load rules now
  if results.isEmpty then none
  else
    match calculate_metrics warning critical results with
    | none => none
    | some metrics => some metrics

/-- An alert observer: `handle_alert` may raise. -/
def Observer := QualityMetrics → Except String Unit

/-- `AlertManager.notify_observers`: the loop body has no exception
handler, so the first observer that raises propagates its exception and ends
the loop.  The returned list holds one outcome per observer actually
invoked, in registration order. -/
def notify_observers (observers : List Observer) (metrics : QualityMetrics) :
    List (Except String Unit) :=
  match observers with
  | [] => []
  | o :: rest =>
    match o metrics with
    | Except.ok u => Except.ok u :: notify_observers rest metrics
    | Except.error e => [Except.error e]

/-! ## Concrete data used by witnesses and counterexamples -/

/-- A one-row, one-column dataset with no missing cell. -/
def wData : Dataset := { headers := ["a"], rows := [[Cell.num 1]] }

/-- A dataset whose only date column holds the day 20100 (≈ 2025-01). -/
def clockDemoData : Dataset := { headers := ["d"], rows := [[Cell.date 20100]] }

/-- Date rule over column `d` with the default one-day future allowance. -/
def clockDemoRule : DateValidityRule := { date_columns := ["d"], max_future_days := 1 }

/-- A dataset whose only date column holds the day 9000 (≈ 1994-08). -/
def cexData : Dataset := { headers := ["d"], rows := [[Cell.date 9000]] }

/-- Date rule whose configured `max_future_days` is -12000: at clock day
20000 the cutoff `now + max_future_days` = 8000 sits before the year-2000
floor (10957), so day 9000 counts both as too-far-future and as too-old. -/
def cexDateRule : DateValidityRule := { date_columns := ["d"], max_future_days := -12000 }

/-- The result the completeness rule produces on `wData`. -/
def wCompletenessResult : ValidationResult := CompletenessRule.validate {} wData

/-- Four rule results, three passing, as in the spec's aggregator example. -/
def fourResultsThreePassing : List ValidationResult :=
  [{ rule_name := "a", success := true, score := 100, details := [], recommendations := [] },
   { rule_name := "b", success := true, score := 100, details := [], recommendations := [] },
   { rule_name := "c", success := true, score := 100, details := [], recommendations := [] },
   { rule_name := "d", success := false, score := 0, details := [], recommendations := [] }]

/-- The metrics `calculate_metrics 80 50` produces on those four results. -/
def exampleMetrics : QualityMetrics :=
  { success_rate := 75
    total_checks := 4
    passed_checks := 3
    failed_checks := 1
    critical_failures := ["d"]
    overall_status := Status.WARNING }

/-- A rule list whose middle rule raises (`record_id` is absent from
`wData`, so the uniqueness rule hits a `KeyError`). -/
def wRulePre : Rule := Rule.completeness { threshold := 2 }

def wRuleBad : Rule := Rule.uniqueness { key_columns := ["record_id"] }

def wRulePost : Rule := Rule.roi_threshold { roi_column := "roi" }

/-- A fixed verdict handed to observers in the alert examples. -/
def cexVerdict : QualityMetrics :=
  { success_rate := 0, total_checks := 1, passed_checks := 0, failed_checks := 1,
    critical_failures := ["a"], overall_status := Status.CRITICAL }

/-- An observer whose `handle_alert` raises. -/
def failingObserver : Observer := fun _ => Except.error "boom"

/-- An observer whose `handle_alert` returns normally. -/
def okObserver : Observer := fun _ => Except.ok ()

/-- `RuleParams` left entirely at their defaults. -/
def defaultParams : RuleParams := {}

/-- A dataset without the ROI column. -/
def wNoColData : Dataset := { headers := ["x"], rows := [[Cell.num 1]] }

/-- A dataset whose ROI column holds only nulls. -/
def wAllNullData : Dataset := { headers := ["roi"], rows := [[Cell.null]] }

/-- ROI rule over column `roi` with the default bounds. -/
def wRoiRule : RoiThresholdRule := { roi_column := "roi" }

/-- Date rule whose only configured column is absent from `wData`. -/
def wDateRule : DateValidityRule := { date_columns := ["nope"] }

/-! ## Helper lemmas -/

lemma foldr_max_nonneg (l : List ℚ) : 0 ≤ l.foldr max 0 := by
  induction l with
  | nil => simp
  | cons a l ih => exact le_trans ih (le_max_right a _)

lemma countP_three_disjoint {α : Type} (p q r : α → Bool)
    (hpq : ∀ x, p x = true → q x = false)
    (hpr : ∀ x, p x = true → r x = false)
    (hqr : ∀ x, q x = true → r x = false) :
    ∀ l : List α, l.countP p + l.countP q + l.countP r ≤ l.length := by
  intro l
  induction l with
  | nil => simp
  | cons a l ih =>
    have h1 := hpq a
    have h2 := hpr a
    have h3 := hqr a
    simp only [List.countP_cons, List.length_cons]
    cases hp : p a <;> cases hq : q a <;> cases hr : r a <;> simp_all <;> omega

lemma colInvalidCount_le (r : DateValidityRule) (now : ℤ) (cells : List Cell)
    (h : year2000 ≤ now + r.max_future_days) :
    r.colInvalidCount now cells ≤ cells.length := by
  unfold DateValidityRule.colInvalidCount
  have hlen : (cells.map Cell.parseDate).length = cells.length := List.length_map _ _
  rw [← hlen]
  apply countP_three_disjoint
  · intro o ho
    cases o with
    | none => rfl
    | some dd => simp at ho
  · intro o ho
    cases o with
    | none => rfl
    | some dd => simp at ho
  · intro o ho
    cases o with
    | none => simp at ho
    | some dd =>
      simp only [Option.elim] at ho ⊢
      rw [decide_eq_true_iff] at ho
      rw [decide_eq_false_iff_not]
      omega

lemma scanStep_le (r : DateValidityRule) (data : Dataset) (now : ℤ)
    (h : year2000 ≤ now + r.max_future_days) :
    ∀ (cols : List String) (a b : ℕ), a ≤ b →
      (cols.foldl (r.scanStep data now) (a, b)).1 ≤ (cols.foldl (r.scanStep data now) (a, b)).2 := by
  intro cols
  induction cols with
  | nil => intro a b hab; simpa using hab
  | cons c cols ih =>
    intro a b hab
    simp only [List.foldl_cons]
    unfold DateValidityRule.scanStep
    by_cases hc : data.hasCol c
    · simp only [hc, if_true]
      apply ih
      have hcol := colInvalidCount_le r now (data.getCol c) h
      have hlen : (data.getCol c).length = data.rows.length := List.length_map _ _
      omega
    · simp only [hc]
      simp only [Bool.false_eq_true, if_false]
      exact ih a b hab

lemma scanColumns_le (r : DateValidityRule) (data : Dataset) (now : ℤ)
    (h : year2000 ≤ now + r.max_future_days) :
    (r.scanColumns data now).1 ≤ (r.scanColumns data now).2 := by
  unfold DateValidityRule.scanColumns
  exact scanStep_le r data now h r.date_columns 0 0 (le_refl 0)

lemma clamp_bounds (x : ℚ) (hx : 0 ≤ x) :
    0 ≤ max 0 (100 - x) ∧ max 0 (100 - x) ≤ 100 := by
  constructor
  · exact le_max_left 0 _
  · apply max_le
    · norm_num
    · linarith

lemma completeness_score_bounds (r : CompletenessRule) (data : Dataset) :
    0 ≤ (r.validate data).score ∧ (r.validate data).score ≤ 100 := by
  unfold CompletenessRule.validate
  cases hm : data.maxMissingPct with
  | none => norm_num
  | some m =>
    have hm0 : 0 ≤ m := by
      unfold Dataset.maxMissingPct at hm
      split at hm
      · exact absurd hm (by simp)
      · simp only [Option.some.injEq] at hm
        rw [← hm]
        exact foldr_max_nonneg _
    exact clamp_bounds m hm0

lemma uniqueness_score_bounds (r : UniquenessRule) (data : Dataset) (res : ValidationResult)
    (h : r.validate data = Except.ok res) :
    0 ≤ res.score ∧ res.score ≤ 100 := by
  unfold UniquenessRule.validate at h
  split at h
  · simp only [Except.ok.injEq] at h
    rw [← h]
    simp only
    split
    · norm_num
    · exact clamp_bounds _ (by positivity)
  · exact absurd h (by simp)

lemma roi_score_bounds (r : RoiThresholdRule) (data : Dataset) (res : ValidationResult)
    (h : r.validate data = Except.ok res) :
    0 ≤ res.score ∧ res.score ≤ 100 := by
  unfold RoiThresholdRule.validate at h
  split at h
  · simp only [Except.ok.injEq] at h
    rw [← h]
    unfold RoiThresholdRule.missingColumnResult
    norm_num
  · dsimp only at h
    split at h
    · simp only [Except.ok.injEq] at h
      rw [← h]
      unfold RoiThresholdRule.noValidValuesResult
      norm_num
    · split at h
      · simp only [Except.ok.injEq] at h
        rw [← h]
        exact clamp_bounds _ (by positivity)
      · exact absurd h (by simp)

lemma date_score_bounds (r : DateValidityRule) (data : Dataset) (now : ℤ)
    (h : year2000 ≤ now + r.max_future_days) :
    0 ≤ (r.validate data now).score ∧ (r.validate data now).score ≤ 100 := by
  have hIT := scanColumns_le r data now h
  unfold DateValidityRule.validate
  simp only
  set I := (r.scanColumns data now).1 with hI
  set T := (r.scanColumns data now).2 with hT
  split
  · rename_i hT0
    have hTQ : (0:ℚ) < (T:ℚ) := by exact_mod_cast hT0
    have hsub : (0:ℚ) ≤ (T:ℚ) - (I:ℚ) := by
      have : (I:ℚ) ≤ (T:ℚ) := by exact_mod_cast hIT
      linarith
    constructor
    · positivity
    · have hdiv : ((T:ℚ) - (I:ℚ)) / (T:ℚ) ≤ 1 := by
        rw [div_le_one hTQ]
        have hI0 : (0:ℚ) ≤ (I:ℚ) := by positivity
        linarith
      calc ((T:ℚ) - (I:ℚ)) / (T:ℚ) * 100 ≤ 1 * 100 := by
            apply mul_le_mul_of_nonneg_right hdiv; norm_num
        _ = 100 := by norm_num
  · norm_num

lemma notify_all_ok (m : QualityMetrics) :
    ∀ obs : List Observer, (∀ x ∈ obs, x m = Except.ok ()) →
      notify_observers obs m = obs.map (fun x => x m) := by
  intro obs
  induction obs with
  | nil => intro _; rfl
  | cons x rest ih =>
    intro h
    have hx : x m = Except.ok () := h x (List.mem_cons_self _ _)
    simp only [notify_observers, hx, List.map_cons]
    exact congrArg _ (ih (fun y hy => h y (List.mem_cons_of_mem _ hy)))

lemma notify_stops (m : QualityMetrics) (o : Observer) (e : String)
    (h₂ : o m = Except.error e) :
    ∀ obs₁ : List Observer, (∀ x ∈ obs₁, x m = Except.ok ()) →
    ∀ obs₂ : List Observer,
      notify_observers (obs₁ ++ o :: obs₂) m
        = obs₁.map (fun x => x m) ++ [Except.error e] := by
  intro obs₁
  induction obs₁ with
  | nil =>
    intro _ obs₂
    simp only [List.nil_append, notify_observers, h₂, List.map_nil]
  | cons x rest ih =>
    intro h obs₂
    have hx : x m = Except.ok () := h x (List.mem_cons_self _ _)
    simp only [List.cons_append, notify_observers, hx, List.map_cons, List.append_eq]
    rw [ih (fun y hy => h y (List.mem_cons_of_mem _ hy)) obs₂]

lemma scan_all_absent (r : DateValidityRule) (data : Dataset) (now : ℤ) :
    ∀ cols : List String, (∀ c ∈ cols, data.hasCol c = false) →
    ∀ acc : ℕ × ℕ, cols.foldl (r.scanStep data now) acc = acc := by
  intro cols
  induction cols with
  | nil => intro _ acc; rfl
  | cons c cols ih =>
    intro h acc
    have hc : data.hasCol c = false := h c (List.mem_cons_self _ _)
    simp only [List.foldl_cons]
    rw [show r.scanStep data now acc c = acc by
      unfold DateValidityRule.scanStep; rw [hc]; simp]
    exact ih (fun y hy => h y (List.mem_cons_of_mem _ hy)) acc

/-! ## Claim theorems -/

/-- C1 (amended): every `RuleResult` score lies in [0, 100], for the
completeness, uniqueness and ROI rules unconditionally, and for the
date-validity rule provided the current instant plus `max_future_days` is
not earlier than the year-2000 sanity floor (true in particular for every
nonnegative `max_future_days` at any time after 2000). -/
theorem validate_score_in_range (rule : Rule) (data : Dataset) (now : ℤ)
    (res : ValidationResult) (hclock : rule.clockOK now)
    (h : rule.validateAt data now = Except.ok res) :
    0 ≤ res.score ∧ res.score ≤ 100 := by
  cases rule with
  | completeness r =>
    simp only [Rule.validateAt, Except.ok.injEq] at h
    rw [← h]
    exact completeness_score_bounds r data
  | uniqueness r => exact uniqueness_score_bounds r data res h
  | date_validity r =>
    simp only [Rule.validateAt, Except.ok.injEq] at h
    rw [← h]
    exact date_score_bounds r data now hclock
  | roi_threshold r => exact roi_score_bounds r data res h

/-- C1 witness: the completeness rule on a concrete dataset has a score in
[0, 100]. -/
theorem validate_score_in_range_witness :
    0 ≤ wCompletenessResult.score ∧ wCompletenessResult.score ≤ 100 :=
  validate_score_in_range (Rule.completeness {}) wData 0 wCompletenessResult trivial rfl

/-- C1 counterexample: with `max_future_days = -12000` at clock day 20000,
the date 9000 in the only scanned cell is counted both as too-far-future
and as pre-2000, so `invalid_dates = 2 > total_date_cells = 1` and the
returned score is -100, outside [0, 100]. -/
theorem validate_score_range_counterexample :
    Rule.validateAt (Rule.date_validity cexDateRule) cexData 20000
      = Except.ok (DateValidityRule.validate cexDateRule cexData 20000) ∧
    (DateValidityRule.validate cexDateRule cexData 20000).score < 0 := by
  constructor
  · rfl
  · have hscan : cexDateRule.scanColumns cexData 20000 = (2, 1) := by decide
    unfold DateValidityRule.validate
    rw [hscan]
    norm_num

/-- C2: a rule whose `validate` raises is logged and omitted from the
result sequence, every other rule still runs, and the surviving results
keep configuration order (the results of the rules before the failing one,
then the results of the rules after it). -/
theorem rule_failure_isolated (data : Dataset) (now : ℤ) (pre post : List Rule)
    (bad : Rule) (e : String) (hb : bad.validateAt data now = Except.error e) :
    (runRules data now (pre ++ bad :: post)).1
      = (runRules data now pre).1 ++ (runRules data now post).1 ∧
    ("Error running rule " ++ bad.name ++ ": " ++ e)
      ∈ (runRules data now (pre ++ bad :: post)).2 := by
  induction pre with
  | nil =>
    simp [runRules, hb]
  | cons r pre ih =>
    simp only [List.cons_append, runRules]
    cases hv : r.validateAt data now with
    | ok v =>
      simp only
      exact ⟨congrArg _ ih.1, ih.2⟩
    | error e2 =>
      simp only
      exact ⟨ih.1, List.mem_cons_of_mem _ ih.2⟩

/-- C2 witness: the uniqueness rule fails on `wData` (missing key column)
between a completeness rule and an ROI rule; the run returns exactly the
other two rules' results, in order, and logs the failure. -/
theorem rule_failure_isolated_witness :
    (runRules wData 0 ([wRulePre] ++ wRuleBad :: [wRulePost])).1
      = (runRules wData 0 [wRulePre]).1 ++ (runRules wData 0 [wRulePost]).1 ∧
    ("Error running rule " ++ wRuleBad.name ++ ": " ++ "KeyError")
      ∈ (runRules wData 0 ([wRulePre] ++ wRuleBad :: [wRulePost])).2 :=
  rule_failure_isolated wData 0 [wRulePre] [wRulePost] wRuleBad "KeyError" rfl

/-- C3 counterexample: with a failing observer registered first, `notify`
produces one outcome for one invoked observer out of two registered, so the
later-registered observer is never notified — there is no isolating handler
in `notify_observers`. -/
theorem notify_observers_counterexample :
    notify_observers [failingObserver, okObserver] cexVerdict = [Except.error "boom"] ∧
    (notify_observers [failingObserver, okObserver] cexVerdict).length = 1 ∧
    [failingObserver, okObserver].length = 2 :=
  ⟨rfl, rfl, rfl⟩

/-- C3 (amended): `notify` invokes observers with the verdict in
registration order; when no observer raises, every observer is notified,
but an exception from one observer propagates and prevents all
later-registered observers from being notified. -/
theorem notify_observers_amended (obs₁ obs₂ : List Observer) (o : Observer)
    (m : QualityMetrics) (e : String)
    (h₁ : ∀ x ∈ obs₁, x m = Except.ok ())
    (h₂ : o m = Except.error e) :
    notify_observers (obs₁ ++ o :: obs₂) m
      = obs₁.map (fun x => x m) ++ [Except.error e] ∧
    (∀ obs : List Observer, (∀ x ∈ obs, x m = Except.ok ()) →
      notify_observers obs m = obs.map (fun x => x m)) :=
  ⟨notify_stops m o e h₂ obs₁ h₁ obs₂, notify_all_ok m⟩

/-- C3 witness: one healthy observer, then a failing one, then another
healthy one — the first is notified, the failure propagates, the third is
cut off. -/
theorem notify_observers_amended_witness :
    notify_observers ([okObserver] ++ failingObserver :: [okObserver]) cexVerdict
      = [okObserver].map (fun x => x cexVerdict) ++ [Except.error "boom"] :=
  (notify_observers_amended [okObserver] [okObserver] failingObserver cexVerdict "boom"
    (by intro x hx; rw [List.mem_singleton] at hx; rw [hx]; rfl) rfl).1

/-- C4: `calculate_metrics` returns `None` on an empty result list, and on
a non-empty list returns a verdict with `total_checks` the number of
results, `passed_checks` the count of successes, `failed_checks` the
difference, `success_rate = passed/total*100`, and the status classified
warning-tier first; with thresholds 80/50 and 4 results of which 3 pass the
rate is 75 and the status WARNING. -/
theorem calculate_metrics_spec (warning critical : ℚ) (results : List ValidationResult)
    (hne : results ≠ []) :
    calculate_metrics warning critical [] = none ∧
    (∃ m, calculate_metrics warning critical results = some m ∧
      m.total_checks = results.length ∧
      m.passed_checks = (results.filter (fun r => r.success)).length ∧
      m.failed_checks = m.total_checks - m.passed_checks ∧
      m.success_rate = (m.passed_checks : ℚ) / (m.total_checks : ℚ) * 100 ∧
      m.overall_status = classifyStatus warning critical m.success_rate) ∧
    calculate_metrics 80 50 fourResultsThreePassing = some exampleMetrics ∧
    exampleMetrics.success_rate = 75 ∧
    exampleMetrics.overall_status = Status.WARNING := by
  refine ⟨rfl, ?_, ?_, rfl, rfl⟩
  · cases results with
    | nil => exact absurd rfl hne
    | cons a l =>
      refine ⟨_, rfl, rfl, rfl, rfl, ?_, rfl⟩
      simp only
      rw [if_pos (show 0 < (a :: l).length by simp)]
  · unfold calculate_metrics fourResultsThreePassing exampleMetrics
    norm_num [classifyStatus]

/-- C4 witness: the concrete 4-result example instantiates the nonempty
case. -/
theorem calculate_metrics_spec_witness :
    calculate_metrics 80 50 ([] : List ValidationResult) = none ∧
    calculate_metrics 80 50 fourResultsThreePassing = some exampleMetrics :=
  ⟨(calculate_metrics_spec 80 50 fourResultsThreePassing
      (by unfold fourResultsThreePassing; exact List.cons_ne_nil _ _)).1,
   (calculate_metrics_spec 80 50 fourResultsThreePassing
      (by unfold fourResultsThreePassing; exact List.cons_ne_nil _ _)).2.2.1⟩

/-- C5: for fixed thresholds the status classification is monotone — a
strictly higher success rate never gets a strictly worse (higher-severity)
status. -/
theorem status_monotonic (warning critical a b : ℚ) (h : b < a) :
    statusSeverity (classifyStatus warning critical a)
      ≤ statusSeverity (classifyStatus warning critical b) := by
  unfold classifyStatus
  split_ifs <;> simp [statusSeverity] <;> linarith

/-- C5 witness: at thresholds 80/50, rate 75 (WARNING) is classified no
worse than rate 30 (CRITICAL). -/
theorem status_monotonic_witness :
    statusSeverity (classifyStatus 80 50 75) ≤ statusSeverity (classifyStatus 80 50 30) :=
  status_monotonic 80 50 75 30 (by norm_num)

/-- C6: when the dataset load fails, `monitor` returns the absent signal
(`none`, never a `some` verdict — hence never a CRITICAL verdict) and no
rule's `validate` is invoked. -/
theorem load_failure_no_verdict (e : DataLoadError) (rules : List Rule)
    (warning critical : ℚ) (now : ℤ) :
    monitor warning critical rules (Except.error e) now = none ∧
    invokedRules (Except.error e) rules = [] ∧
    (monitor warning critical rules (Except.error e) now).isSome = false :=
  ⟨rfl, rfl, rfl⟩

/-- C7: `create_rule` fails on an unregistered kind with an error naming
that kind, and on each registered kind returns the rule constructed from
the supplied parameters. -/
theorem create_rule_spec (kind : String) (p : RuleParams) :
    (ValidationRuleFactory.rules.contains kind = false →
      ValidationRuleFactory.create_rule kind p
        = Except.error ("Unknown rule type: " ++ kind)) ∧
    (kind = "completeness" →
      ValidationRuleFactory.create_rule kind p
        = Except.ok (Rule.completeness { threshold := p.threshold })) ∧
    (kind = "uniqueness" →
      ValidationRuleFactory.create_rule kind p
        = Except.ok (Rule.uniqueness { key_columns := p.key_columns })) ∧
    (kind = "date_validity" →
      ValidationRuleFactory.create_rule kind p
        = Except.ok (Rule.date_validity
            { date_columns := p.date_columns, max_future_days := p.max_future_days })) ∧
    (kind = "roi_threshold" →
      ValidationRuleFactory.create_rule kind p
        = Except.ok (Rule.roi_threshold
            { roi_column := p.roi_column, min_threshold := p.min_threshold,
              max_threshold := p.max_threshold })) := by
  refine ⟨?_, ?_, ?_, ?_, ?_⟩
  · intro h
    unfold ValidationRuleFactory.create_rule
    rw [h]
    simp
  · intro h; subst h; rfl
  · intro h; subst h; rfl
  · intro h; subst h; rfl
  · intro h; subst h; rfl

/-- C7 witness: an unregistered kind is rejected with a message naming it;
a registered kind constructs the rule from the parameters. -/
theorem create_rule_spec_witness :
    ValidationRuleFactory.create_rule "bogus" defaultParams
      = Except.error ("Unknown rule type: " ++ "bogus") ∧
    ValidationRuleFactory.create_rule "completeness" defaultParams
      = Except.ok (Rule.completeness { threshold := defaultParams.threshold }) :=
  ⟨(create_rule_spec "bogus" defaultParams).1 rfl,
   (create_rule_spec "completeness" defaultParams).2.1 rfl⟩

/-- C8: when the ROI column is absent, or present with zero non-missing
values, `validate` returns (rather than raising) a result with
`success = false`, `score = 0`, and an `error` entry in `details`. -/
theorem roi_degenerate_cases (r : RoiThresholdRule) (data : Dataset) :
    (data.hasCol r.roi_column = false →
      r.validate data = Except.ok r.missingColumnResult) ∧
    (data.hasCol r.roi_column = true →
      (data.getCol r.roi_column).filter (fun c => !c.isNull) = [] →
      r.validate data = Except.ok RoiThresholdRule.noValidValuesResult) ∧
    (r.missingColumnResult.success = false ∧ r.missingColumnResult.score = 0 ∧
      r.missingColumnResult.hasErrorDetail = true) ∧
    (RoiThresholdRule.noValidValuesResult.success = false ∧
      RoiThresholdRule.noValidValuesResult.score = 0 ∧
      RoiThresholdRule.noValidValuesResult.hasErrorDetail = true) := by
  refine ⟨?_, ?_, ⟨rfl, rfl, rfl⟩, ⟨rfl, rfl, rfl⟩⟩
  · intro h
    unfold RoiThresholdRule.validate
    rw [h]
    rfl
  · intro h hemp
    unfold RoiThresholdRule.validate
    rw [h]
    simp only [Bool.not_true, Bool.false_eq_true, if_false, hemp]
    rfl

/-- C8 witness: a dataset without the ROI column, and one whose ROI column
is all nulls, both produce the degenerate failing results. -/
theorem roi_degenerate_cases_witness :
    RoiThresholdRule.validate wRoiRule wNoColData = Except.ok wRoiRule.missingColumnResult ∧
    RoiThresholdRule.validate wRoiRule wAllNullData
      = Except.ok RoiThresholdRule.noValidValuesResult :=
  ⟨(roi_degenerate_cases wRoiRule wNoColData).1 rfl,
   (roi_degenerate_cases wRoiRule wAllNullData).2.1 rfl rfl⟩

/-- C9 counterexample: `DateValidityRule.validate` reads the clock.  On the
same one-cell dataset (a date at day 20100) the rule fails when invoked at
day 20000 (the cell is more than one day in the future) and passes when
invoked at day 20100, so two invocations on the same immutable dataset can
disagree — `validate` is not a function of the dataset alone. -/
theorem date_validity_clock_dependent :
    (DateValidityRule.validate clockDemoRule clockDemoData 20000).success = false ∧
    (DateValidityRule.validate clockDemoRule clockDemoData 20100).success = true :=
  ⟨rfl, rfl⟩

/-- C9 (amended): the completeness, uniqueness and ROI rules are
deterministic functions of the dataset alone (their result is independent
of the clock); the date-validity rule is deterministic only given the
dataset together with the current instant. -/
theorem validate_clock_independent (rule : Rule) (data : Dataset) (t₁ t₂ : ℤ)
    (h : rule.usesClock = false) :
    rule.validateAt data t₁ = rule.validateAt data t₂ := by
  cases rule with
  | completeness r => rfl
  | uniqueness r => rfl
  | date_validity r => simp [Rule.usesClock] at h
  | roi_threshold r => rfl

/-- C9 witness: the completeness rule gives the same result at two
different clock values. -/
theorem validate_clock_independent_witness :
    Rule.validateAt (Rule.completeness {}) wData 0
      = Rule.validateAt (Rule.completeness {}) wData 5 :=
  validate_clock_independent (Rule.completeness {}) wData 0 5 rfl

/-- C10: when none of the configured date columns exist in the dataset,
zero cells are scanned and `validate` reports `success = true` together
with `score = 0` — a passing verdict with a zero score. -/
theorem date_validity_vacuous_pass (r : DateValidityRule) (data : Dataset) (now : ℤ)
    (h : ∀ c ∈ r.date_columns, data.hasCol c = false) :
    (r.validate data now).success = true ∧ (r.validate data now).score = 0 := by
  have hscan : r.scanColumns data now = (0, 0) :=
    scan_all_absent r data now r.date_columns h (0, 0)
  unfold DateValidityRule.validate
  rw [hscan]
  exact ⟨rfl, rfl⟩

/-- C10 witness: a date rule configured with the absent column `nope`
passes `wData` with score 0. -/
theorem date_validity_vacuous_pass_witness :
    (DateValidityRule.validate wDateRule wData 0).success = true ∧
    (DateValidityRule.validate wDateRule wData 0).score = 0 :=
  date_validity_vacuous_pass wDateRule wData 0
    (by
      intro c hc
      rw [show wDateRule.date_columns = ["nope"] from rfl, List.mem_singleton] at hc
      rw [hc]
      rfl)
